import Mathlib

/-!
Shallow embedding of the customer-retention core of the Customer_360 backend:
the segmentation engine (`src/backend/src/services/backup.js`, third module),
the real-time sales window and cart-recovery orchestrator
(`src/backend/src/services/analytics.js`), and the `Cart` mongoose model
(`src/backend/src/models/Cart.js`).

Times are integer Unix milliseconds (`Date.now()`).  JS numbers are modelled
as exact rationals (`ℚ`); the places where IEEE semantics matter (division by
zero) are embedded explicitly and noted at the definition.  The Redis
key-value store is modelled by typed association lists with first-match
lookup; `set` shadows, `del` removes every binding of the key.
-/

namespace Customer360

/-- A Redis-like keyspace holding values of type `α`.  Writes shadow older
bindings, reads take the most recent binding, deletion drops every binding. -/
abbrev KV (α : Type) := List (String × α)

def kvGet {α : Type} (s : KV α) (k : String) : Option α :=
  (s.find? (fun p => p.1 == k)).map (fun p => p.2)

def kvSet {α : Type} (s : KV α) (k : String) (v : α) : KV α :=
  (k, v) :: s

def kvDel {α : Type} (s : KV α) (k : String) : KV α :=
  s.filter (fun p => p.1 != k)

@[simp]
theorem kvGet_kvSet_same {α : Type} (s : KV α) (k : String) (v : α) :
    kvGet (kvSet s k v) k = some v := by
  simp [kvGet, kvSet, List.find?]

theorem kvGet_kvSet_other {α : Type} (s : KV α) (k k' : String) (v : α)
    (h : k' ≠ k) : kvGet (kvSet s k v) k' = kvGet s k' := by
  simp only [kvGet, kvSet]
  have hk : (k == k') = false := by
    simp only [beq_eq_false_iff_ne, ne_eq]
    exact fun hh => h hh.symm
  rw [List.find?_cons_of_neg]
  simp [hk]

@[simp]
theorem kvGet_kvDel_same {α : Type} (s : KV α) (k : String) :
    kvGet (kvDel s k) k = none := by
  simp only [kvGet, kvDel, Option.map_eq_none']
  rw [List.find?_eq_none]
  intro p hp
  have := List.of_mem_filter hp
  simp at this ⊢
  exact this

@[simp]
theorem kvGet_nil {α : Type} (k : String) : kvGet ([] : KV α) k = none := rfl

/-! ## Data model (`Customer.js`, `Order.js`, `Cart.js` schemas) -/

/-- `customerSchema.type`, enum individual|business. -/
inductive CustomerType
  | individual
  | business
deriving DecidableEq, Repr

/-- `customerSchema.loyalty.tier`, enum with default `bronze`; the schema
guarantees the tier is always one of these four non-empty strings, so the
JS truthiness check `if (customer.loyalty.tier)` always passes. -/
inductive LoyaltyTier
  | bronze
  | silver
  | gold
  | platinum
deriving DecidableEq, Repr

def LoyaltyTier.name : LoyaltyTier → String
  | bronze => "bronze"
  | silver => "silver"
  | gold => "gold"
  | platinum => "platinum"

/-- `customerSchema.contactPreferences` (the channels the core consults). -/
structure ContactPreferences where
  email : Bool
  sms : Bool
  whatsapp : Bool
deriving DecidableEq, Repr

/-- `customerSchema.metrics`. -/
structure CustomerMetrics where
  totalOrders : Nat
  totalSpent : ℚ
  averageOrderValue : ℚ
  firstPurchaseDate : Option Int
  lastPurchaseDate : Option Int
deriving DecidableEq, Repr

/-- The slice of `customerSchema` read or written by the core.  `id` models
the document `_id`. -/
structure Customer where
  id : String
  customerType : CustomerType
  metrics : CustomerMetrics
  loyaltyTier : LoyaltyTier
  contactPreferences : ContactPreferences
  segments : List String
deriving DecidableEq, Repr

/-- An order line item (shape shared with cart items). -/
structure CartItem where
  productId : String
  quantity : Nat
  price : ℚ
deriving DecidableEq, Repr

/-- The slice of `orderSchema` the analytics/segmentation code reads. -/
structure Order where
  id : String
  customerId : String
  total : ℚ
  items : List CartItem
  createdAt : Int
deriving DecidableEq, Repr

/-- `cartSchema.status` enum. -/
inductive CartStatus
  | active
  | abandoned
  | converted
  | expired
deriving DecidableEq, Repr

/-- Channels appearing in `cartSchema.recoveryAttempts.type` and the
recovery service's channel lists. -/
inductive Channel
  | whatsapp
  | email
  | sms
deriving DecidableEq, Repr

/-- `cartSchema.recoveryAttempts.*.response` enum (default `none`). -/
inductive RecoveryResponse
  | noResponse
  | opened
  | clicked
  | converted
deriving DecidableEq, Repr

/-- One entry of `cartSchema.recoveryAttempts`; `attemptId` models the
subdocument `_id` (unique within a cart), `channelKind` the `type` field. -/
structure RecoveryAttemptLog where
  attemptId : String
  channelKind : Channel
  templateId : Option String
  sentAt : Int
  response : RecoveryResponse
deriving DecidableEq, Repr

/-- The slice of `cartSchema` the core reads and writes. -/
structure Cart where
  id : String
  customerId : String
  items : List CartItem
  status : CartStatus
  totalValue : ℚ
  lastActivity : Int
  abandonedAt : Option Int
  recoveryAttempts : List RecoveryAttemptLog
deriving DecidableEq, Repr

/-! ## Cart instance methods (`Cart.js` lines 100-202)

Every mongoose `save` runs the pre-save hook recomputing `totalValue` as
`sum(item.price * item.quantity)`; `saveCart` applies it.  Methods that do
not call `save` leave the document untouched. -/

def cartComputedTotal (items : List CartItem) : ℚ :=
  items.foldl (fun total item => total + item.price * (item.quantity : ℚ)) 0

def saveCart (c : Cart) : Cart :=
  { c with totalValue := cartComputedTotal c.items }

def Cart.abandon (c : Cart) (now : Int) : Cart :=
  if c.status = CartStatus.active then
    saveCart { c with status := CartStatus.abandoned, abandonedAt := some now }
  else c

def Cart.recover (c : Cart) (now : Int) : Cart :=
  if c.status = CartStatus.abandoned then
    saveCart { c with status := CartStatus.active, abandonedAt := none,
                      lastActivity := now }
  else c

def Cart.convert (c : Cart) : Cart :=
  saveCart { c with status := CartStatus.converted }

def Cart.expire (c : Cart) : Cart :=
  saveCart { c with status := CartStatus.expired }

def Cart.logRecoveryAttempt (c : Cart) (attemptId : String) (channel : Channel)
    (templateId : Option String) (now : Int) : Cart :=
  saveCart { c with recoveryAttempts := c.recoveryAttempts ++
    [{ attemptId := attemptId, channelKind := channel, templateId := templateId,
       sentAt := now, response := RecoveryResponse.noResponse }] }

/-- `updateRecoveryResponse(attemptId, response)`: looks the attempt up by
subdocument id, records the response, and when the response is `converted`
also sets the cart status to `converted`; no save happens when no attempt
matches.  Subdocument ids are unique, so updating every match coincides with
mongoose's `.id()` single lookup. -/
def Cart.updateRecoveryResponse (c : Cart) (attemptId : String)
    (response : RecoveryResponse) : Cart :=
  if c.recoveryAttempts.any (fun a => a.attemptId == attemptId) then
    let attempts := c.recoveryAttempts.map (fun a =>
      if a.attemptId == attemptId then { a with response := response } else a)
    let status := if response = RecoveryResponse.converted
      then CartStatus.converted else c.status
    saveCart { c with recoveryAttempts := attempts, status := status }
  else c

/-! ## Segmentation engine (`backup.js`, `SegmentationEngine`)

The engine's Redis footprint: `customer:<id>:segments` (classification cache,
value plus TTL seconds) and `customer:<id>:messageCount` (engagement
sub-cache).  Rules receive only the message-count keyspace: no rule in the
repository touches the segments cache or the customer store. -/

/-- `SegmentationEngine.CACHE_TTL` (seconds). -/
def CACHE_TTL : Nat := 3600

structure SegState where
  segmentsCache : KV (List String × Nat)
  messageCountCache : KV (Nat × Nat)
deriving DecidableEq, Repr

/-- Read-only collaborator data a rule evaluation may consult: the order
collection (`Order.find`), the message counts (`Message.countDocuments`
grouped by customer) and the current clock. -/
structure SegEnv where
  orders : List Order
  messageCount : String → Nat
  now : Int

/-- A segmentation rule: may read the environment, read/write the
message-count sub-cache, and either return labels or throw. -/
def SegRule : Type :=
  SegEnv → KV (Nat × Nat) → Customer → KV (Nat × Nat) × Except String (List String)

/-- `getCustomerMessageCount`: cache hit short-circuits (the cached count is
stored as a decimal string, which is truthy even for `"0"`); a miss queries
the message collection and caches the count with the 1-hour TTL. -/
def getCustomerMessageCount (env : SegEnv) (msgCache : KV (Nat × Nat))
    (customerId : String) : Nat × KV (Nat × Nat) :=
  let cacheKey := "customer:" ++ customerId ++ ":messageCount"
  match kvGet msgCache cacheKey with
  | some cached => (cached.1, msgCache)
  | none =>
    let count := env.messageCount customerId
    (count, kvSet msgCache cacheKey (count, CACHE_TTL))

/-- The `purchase_frequency` default rule.  `daysSinceFirstPurchase` is
`Math.floor((Date.now() - firstOrder.createdAt) / 86400000)`, embedded with
floor division (`Int.fdiv`).  When the floored denominator is `0`, JS
computes `orders.length / 0 = Infinity` (the numerator is positive here), and
`Infinity >= 0.5` holds, so the rule returns `frequent_buyer`; that IEEE
behaviour is embedded as the explicit zero-denominator branch.  Division with
a non-zero denominator is modelled exactly over `ℚ`. -/
def purchaseFrequencyRule (env : SegEnv) (customer : Customer) : List String :=
  let orders := env.orders.filter (fun o => o.customerId == customer.id)
  match orders with
  | [] => ["new_customer"]
  | firstOrder :: _ =>
    let daysSinceFirstPurchase : Int := Int.fdiv (env.now - firstOrder.createdAt) 86400000
    if daysSinceFirstPurchase = 0 then ["frequent_buyer"]
    else if ((orders.length : ℚ) / (daysSinceFirstPurchase : ℚ)) ≥ 1/2 then ["frequent_buyer"]
    else if ((orders.length : ℚ) / (daysSinceFirstPurchase : ℚ)) ≥ 1/5 then ["regular_customer"]
    else ["occasional_buyer"]

/-- The `spending_level` default rule. -/
def spendingLevelRule (customer : Customer) : List String :=
  let totalSpent := customer.metrics.totalSpent
  if totalSpent ≥ 10000 then ["high_value"]
  else if totalSpent ≥ 5000 then ["medium_value"]
  else ["low_value"]

/-- The `engagement_level` default rule (stateful through the message-count
sub-cache). -/
def engagementLevelRule (env : SegEnv) (msgCache : KV (Nat × Nat))
    (customer : Customer) : List String × KV (Nat × Nat) :=
  let (messageCount, msgCache) := getCustomerMessageCount env msgCache customer.id
  let tags :=
    if messageCount > 50 then ["highly_engaged"]
    else if messageCount > 20 then ["engaged"]
    else ["low_engagement"]
  let tags := if customer.contactPreferences.whatsapp then tags ++ ["whatsapp_enabled"] else tags
  (tags, msgCache)

/-- The `purchase_recency` default rule (same floor-division embedding as
`purchaseFrequencyRule`; no division occurs here). -/
def purchaseRecencyRule (env : SegEnv) (customer : Customer) : List String :=
  match customer.metrics.lastPurchaseDate with
  | none => ["never_purchased"]
  | some lastPurchaseDate =>
    let daysSinceLastPurchase : Int := Int.fdiv (env.now - lastPurchaseDate) 86400000
    if daysSinceLastPurchase ≤ 30 then ["active"]
    else if daysSinceLastPurchase ≤ 90 then ["at_risk"]
    else ["inactive"]

/-- The default rule registry, in registration order
(`initializeDefaultRules`). -/
def defaultRules : List (String × SegRule) :=
  [("purchase_frequency", fun env m c => (m, Except.ok (purchaseFrequencyRule env c))),
   ("spending_level", fun _ m c => (m, Except.ok (spendingLevelRule c))),
   ("engagement_level", fun env m c =>
      let r := engagementLevelRule env m c
      (r.2, Except.ok r.1)),
   ("purchase_recency", fun env m c => (m, Except.ok (purchaseRecencyRule env c)))]

/-- JS `Set.add`: insertion-ordered, keeps the first occurrence. -/
def setAdd (s : List String) (x : String) : List String :=
  if x ∈ s then s else s ++ [x]

/-- `ruleSegments.forEach(segment => segments.add(segment))`. -/
def setAddAll (s : List String) (xs : List String) : List String :=
  xs.foldl setAdd s

/-- The `for (const [ruleName, ruleFn] of this.segmentationRules)` loop:
rules run in registration order, each one's labels are added to the set; a
throwing rule aborts the loop and the whole call (there is no per-rule
catch). -/
def runRules (rules : List (String × SegRule)) (env : SegEnv)
    (msgCache : KV (Nat × Nat)) (customer : Customer) (acc : List String) :
    KV (Nat × Nat) × Except String (List String) :=
  match rules with
  | [] => (msgCache, Except.ok acc)
  | (_, ruleFn) :: rest =>
    match ruleFn env msgCache customer with
    | (msgCache, Except.error e) => (msgCache, Except.error e)
    | (msgCache, Except.ok ruleSegments) =>
      runRules rest env msgCache customer (setAddAll acc ruleSegments)

/-- `SegmentationEngine.segmentCustomer` (`backup.js` lines 428-465): cache
check, rule loop, the two derived labels (`business_account` when
type=business; `loyalty_<tier>`, whose truthiness guard always passes since
the schema constrains the tier to a non-empty enum value), `setex` of the
final array with the 1-hour TTL, and the catch that logs and rethrows. -/
def segmentCustomer (rules : List (String × SegRule)) (env : SegEnv)
    (st : SegState) (customer : Customer) : SegState × Except String (List String) :=
  let cacheKey := "customer:" ++ customer.id ++ ":segments"
  match kvGet st.segmentsCache cacheKey with
  | some cached => (st, Except.ok cached.1)
  | none =>
    match runRules rules env st.messageCountCache customer [] with
    | (msgCache, Except.error e) =>
      ({ st with messageCountCache := msgCache }, Except.error e)
    | (msgCache, Except.ok segments) =>
      let segments :=
        if customer.customerType = CustomerType.business
        then setAdd segments "business_account" else segments
      let segments := setAdd segments ("loyalty_" ++ customer.loyaltyTier.name)
      ({ segmentsCache := kvSet st.segmentsCache cacheKey (segments, CACHE_TTL),
         messageCountCache := msgCache },
       Except.ok segments)

/-- The world `updateCustomerSegments` acts on: the customer collection plus
the engine's cache state. -/
structure SegWorld where
  customers : KV Customer
  cache : SegState
deriving Repr

/-- `SegmentationEngine.updateCustomerSegments` (`backup.js` lines 467-486):
load the customer (error when absent), call `segmentCustomer`, persist the
returned labels onto `customer.segments`, save, then delete the
classification cache key; an error from `segmentCustomer` propagates before
any write. -/
def updateCustomerSegments (rules : List (String × SegRule)) (env : SegEnv)
    (w : SegWorld) (customerId : String) : SegWorld × Except String (List String) :=
  match kvGet w.customers customerId with
  | none => (w, Except.error "Customer not found")
  | some customer =>
    match segmentCustomer rules env w.cache customer with
    | (cache, Except.error e) => ({ w with cache := cache }, Except.error e)
    | (cache, Except.ok segments) =>
      let customers := kvSet w.customers customerId { customer with segments := segments }
      let cache := { cache with
        segmentsCache := kvDel cache.segmentsCache ("customer:" ++ customerId ++ ":segments") }
      ({ customers := customers, cache := cache }, Except.ok segments)

/-! ## Real-time sales window and revenue analytics (`analytics.js`,
`AnalyticsService`) -/

/-- `AnalyticsService.REAL_TIME_WINDOW` (seconds). -/
def REAL_TIME_WINDOW : Int := 300

/-- The JSON payload `trackSaleEvent` stores under the `sales:realtime`
sorted set. -/
structure SaleEventData where
  orderId : String
  amount : ℚ
  customerId : String
  items : Nat
  timestamp : Int
deriving DecidableEq, Repr

/-- The keys `trackSaleEvent` touches: the `sales:realtime` sorted set
(score-value pairs) and the monotonic daily/segment hash counters, flattened
as `key#field`. -/
structure AnalyticsState where
  salesRealtime : List (Int × SaleEventData)
  dailyCounters : KV Int
deriving DecidableEq, Repr

def hincrby (counters : KV Int) (k : String) (delta : Int) : KV Int :=
  kvSet counters k ((kvGet counters k).getD 0 + delta)

/-- `AnalyticsService.trackSaleEvent` (`analytics.js` lines 14-46): build the
event payload, `zadd` it with its timestamp as score, `zremrangebyscore 0
(now - window*1000)` in the same operation, then bump the daily counters and
— when the customer loads and has segments — the per-segment counters.  The
sorted set is kept as an insertion-ordered list; redis orders it by score,
a permutation that no aggregate below depends on.  `dateKey` is the
calendar-date string `new Date().toISOString().split('T')[0]`, passed in
because date formatting is outside the model. -/
def trackSaleEvent (customers : KV Customer) (st : AnalyticsState)
    (order : Order) (now : Int) (dateKey : String) : AnalyticsState :=
  let eventData : SaleEventData :=
    { orderId := order.id, amount := order.total, customerId := order.customerId,
      items := order.items.length, timestamp := now }
  let salesRealtime := (now, eventData) :: st.salesRealtime
  let salesRealtime := salesRealtime.filter (fun e =>
    !(decide (0 ≤ e.1 ∧ e.1 ≤ now - REAL_TIME_WINDOW * 1000)))
  let daily := hincrby st.dailyCounters ("sales:daily:" ++ dateKey ++ "#count") 1
  let daily := hincrby daily ("sales:daily:" ++ dateKey ++ "#revenue") ⌊order.total⌋
  let daily :=
    match kvGet customers order.customerId with
    | some customer =>
      customer.segments.foldl
        (fun d seg => hincrby d ("sales:segments:" ++ dateKey ++ "#" ++ seg) 1) daily
    | none => daily
  { salesRealtime := salesRealtime, dailyCounters := daily }

/-- The stats object `getRealTimeSales` returns. -/
structure RealTimeStats where
  totalSales : Nat
  totalRevenue : ℚ
  salesPerMinute : ℚ
  revenuePerMinute : ℚ
  orders : List SaleEventData
deriving DecidableEq, Repr

/-- `AnalyticsService.getRealTimeSales` (`analytics.js` lines 49-79):
`zrangebyscore [now - window*1000, now]` (both bounds inclusive), then the
`forEach` accumulation of count, revenue and the order payloads, and the
per-minute rates obtained by dividing by `window / 60`. -/
def getRealTimeSales (st : AnalyticsState) (now : Int) : RealTimeStats :=
  let startTime := now - REAL_TIME_WINDOW * 1000
  let events := st.salesRealtime.filter (fun e => decide (startTime ≤ e.1 ∧ e.1 ≤ now))
  let totalSales := events.length
  let totalRevenue := (events.map (fun e => e.2.amount)).sum
  { totalSales := totalSales
    totalRevenue := totalRevenue
    salesPerMinute := (totalSales : ℚ) / ((REAL_TIME_WINDOW : ℚ) / 60)
    revenuePerMinute := totalRevenue / ((REAL_TIME_WINDOW : ℚ) / 60)
    orders := events.map (fun e => e.2) }

/-- One aggregation bucket of `getRevenueAnalytics` before growth rates. -/
structure RevenueBucket where
  bucketId : String
  revenue : ℚ
  orders : Nat
  averageOrderValue : ℚ
deriving DecidableEq, Repr

/-- A bucket with the appended `growthRate`. -/
structure RevenueBucketWithGrowth extends RevenueBucket where
  growthRate : ℚ
deriving DecidableEq, Repr

/-- `AnalyticsService.calculateGrowthRates` (`analytics.js` lines 316-330):
`results.map((current, index) => ...)` with `previous = results[index - 1]`
(`undefined` at index 0, hence growth rate 0 there).  JS divides doubles; the
embedding divides exactly over `ℚ`, which agrees whenever
`previous.revenue ≠ 0` (the theorems below restrict to that case; JS would
produce `Infinity`/`NaN` on a zero previous revenue). -/
def calculateGrowthRates (results : List RevenueBucket) : List RevenueBucketWithGrowth :=
  results.enum.map (fun p =>
    let index := p.1
    let current := p.2
    let previous := if index = 0 then none else results[index - 1]?
    let growthRate :=
      match previous with
      | some prev => ((current.revenue - prev.revenue) / prev.revenue) * 100
      | none => 0
    { toRevenueBucket := current, growthRate := growthRate })

/-! ## Cart recovery orchestrator (`analytics.js`, `CartRecoveryService`) -/

/-- `CartRecoveryService.ABANDONMENT_THRESHOLD` (milliseconds). -/
def ABANDONMENT_THRESHOLD : Int := 30 * 60 * 1000

structure RecoveryInterval where
  hours : Nat
  channels : List Channel
deriving DecidableEq, Repr

/-- `CartRecoveryService.RECOVERY_INTERVALS`. -/
def RECOVERY_INTERVALS : List RecoveryInterval :=
  [{ hours := 1, channels := [Channel.whatsapp] },
   { hours := 24, channels := [Channel.email, Channel.whatsapp] },
   { hours := 72, channels := [Channel.email] }]

/-- One A/B test definition (`initializeABTests`). -/
structure ABTest where
  variants : List String
  distribution : List ℚ
  active : Bool
deriving DecidableEq, Repr

/-- The `abTests` map, in insertion order. -/
def abTests : List (String × ABTest) :=
  [("message_style",
    { variants := ["persuasive", "informative", "urgent"],
      distribution := [33/100, 33/100, 34/100], active := true }),
   ("discount_offer",
    { variants := ["none", "10_percent", "20_percent"],
      distribution := [33/100, 33/100, 34/100], active := true }),
   ("timing",
    { variants := ["immediate", "delayed"],
      distribution := [1/2, 1/2], active := true })]

/-- The loop body of `selectVariant`: walk the variant/weight pairs
accumulating the cumulative probability, returning the first variant whose
cumulative weight reaches the draw; fall through to the last variant. -/
def selectVariantLoop (pairs : List (String × ℚ)) (cumulativeProbability : ℚ)
    (random : ℚ) (fallback : String) : String :=
  match pairs with
  | [] => fallback
  | (v, p) :: rest =>
    let cumulativeProbability := cumulativeProbability + p
    if random ≤ cumulativeProbability then v
    else selectVariantLoop rest cumulativeProbability random fallback

/-- `CartRecoveryService.selectVariant`.  The JS loop indexes
`distribution[i]` in step with `variants[i]`; every registered test has
matching lengths, embedded as `zip`.  `variants[variants.length - 1]` is the
fallback (registered tests are non-empty, so the `""` default of an empty
list is unreachable). -/
def selectVariant (variants : List String) (distribution : List ℚ) (random : ℚ) : String :=
  selectVariantLoop (variants.zip distribution) 0 random
    ((variants.getLast?).getD "")

/-- The recovery service's Redis keys: sticky variant assignments
(`abtest:<test>:<customerId>`) and the integer counters incremented with
`incr` (`abtest:<test>:<variant>:conversions` and the `:impressions` keys
read next to them, plus the `stats:abandonments:*` counters). -/
structure ABState where
  assignments : KV String
  counters : KV Int
deriving DecidableEq, Repr

/-- `Math.random()` draws, consumed from the front; an exhausted stream
yields `0` (the draw is external nondeterminism, threaded explicitly). -/
def drawRandom (rng : List ℚ) : ℚ × List ℚ :=
  match rng with
  | r :: rest => (r, rest)
  | [] => (0, [])

/-- `CartRecoveryService.assignABTestVariant` (`analytics.js` lines
606-619): `null` for a missing or inactive test; otherwise the cached sticky
assignment, or on a miss a fresh `selectVariant` draw written back with
`redis.set` (no TTL).  No impression counter is touched anywhere in this
function. -/
def assignABTestVariant (testName : String) (customerId : String)
    (ab : ABState) (rng : List ℚ) : Option String × ABState × List ℚ :=
  match (abTests.find? (fun t => t.1 == testName)).map (fun t => t.2) with
  | none => (none, ab, rng)
  | some test =>
    if !test.active then (none, ab, rng)
    else
      let cacheKey := "abtest:" ++ testName ++ ":" ++ customerId
      match kvGet ab.assignments cacheKey with
      | some variant => (some variant, ab, rng)
      | none =>
        let (random, rng) := drawRandom rng
        let variant := selectVariant test.variants test.distribution random
        (some variant,
         { ab with assignments := kvSet ab.assignments cacheKey variant }, rng)

/-- `CartRecoveryService.updateABTestResults` (`analytics.js` lines
635-662): for every registered test, re-derive the sticky variant, `incr`
its conversions counter, read back conversions and impressions, and report a
conversion rate only when the impressions key holds a (truthy) value.  The
division is exact over `ℚ` (`conversions / impressions * 100`); redis
returns decimal strings, so `"0"` impressions would be truthy — that value
is unreachable because nothing in the repository ever writes an impressions
key. -/
def updateABTestResultsLoop (tests : List (String × ABTest)) (customerId : String)
    (ab : ABState) (rng : List ℚ) (results : List (String × String × ℚ)) :
    List (String × String × ℚ) × ABState × List ℚ :=
  match tests with
  | [] => (results, ab, rng)
  | (testName, _) :: rest =>
    match assignABTestVariant testName customerId ab rng with
    | (none, ab, rng) => updateABTestResultsLoop rest customerId ab rng results
    | (some variant, ab, rng) =>
      let resultKey := "abtest:" ++ testName ++ ":" ++ variant ++ ":conversions"
      let counters := hincrby ab.counters resultKey 1
      let ab := { ab with counters := counters }
      let impressionKey := "abtest:" ++ testName ++ ":" ++ variant ++ ":impressions"
      let conversions : Int := (kvGet ab.counters resultKey).getD 0
      match kvGet ab.counters impressionKey with
      | some impressions =>
        let rate : ℚ := ((conversions : ℚ) / ((impressions : Int) : ℚ)) * 100
        updateABTestResultsLoop rest customerId ab rng
          (results ++ [(testName, variant, rate)])
      | none => updateABTestResultsLoop rest customerId ab rng results

def updateABTestResults (customerId : String) (ab : ABState) (rng : List ℚ) :
    List (String × String × ℚ) × ABState × List ℚ :=
  updateABTestResultsLoop abTests customerId ab rng []

/-- The strategy object built by `determineRecoveryStrategy`. -/
structure RecoveryStrategy where
  timing : Option String
  messageStyle : Option String
  discountOffer : Option String
  channels : List Channel
deriving DecidableEq, Repr

/-- `CartRecoveryService.determineRecoveryStrategy` (`analytics.js` lines
433-456): three sticky variant assignments, then the channel policy —
`whatsapp+email` when the segments include `high_value`, else when
`cart.totalValue > 1000`, else `email` only — and the opt-out filter that
drops `whatsapp` when `contactPreferences.whatsapp === false`. -/
def determineRecoveryStrategy (cart : Cart) (customer : Customer)
    (segments : List String) (ab : ABState) (rng : List ℚ) :
    RecoveryStrategy × ABState × List ℚ :=
  let (timing, ab, rng) := assignABTestVariant "timing" customer.id ab rng
  let (messageStyle, ab, rng) := assignABTestVariant "message_style" customer.id ab rng
  let (discountOffer, ab, rng) := assignABTestVariant "discount_offer" customer.id ab rng
  let channels :=
    if segments.contains "high_value" then [Channel.whatsapp, Channel.email]
    else if cart.totalValue > 1000 then [Channel.whatsapp, Channel.email]
    else [Channel.email]
  let channels :=
    if customer.contactPreferences.whatsapp = false
    then channels.filter (fun c => c ≠ Channel.whatsapp)
    else channels
  ({ timing := timing, messageStyle := messageStyle, discountOffer := discountOffer,
     channels := channels }, ab, rng)

/-- `MessageTemplate.findOne({category:'cart_recovery', channels, metadata})`
as an abstract query against the template collection. -/
def TemplateQuery : Type :=
  Channel → Option String → Option String → Option String

/-- `CartRecoveryService.selectTemplates`. -/
def selectTemplates (findTemplate : TemplateQuery) (strategy : RecoveryStrategy)
    (channels : List Channel) : List (Channel × String) :=
  channels.foldl (fun templates channel =>
    match findTemplate channel strategy.messageStyle strategy.discountOffer with
    | some templateId => templates ++ [(channel, templateId)]
    | none => templates) []

/-- One scheduled attempt of a recovery plan. -/
structure PlanAttempt where
  scheduledFor : Int
  channels : List Channel
  templates : List (Channel × String)
deriving DecidableEq, Repr

structure RecoveryPlan where
  cartId : String
  customerId : String
  strategy : RecoveryStrategy
  attempts : List PlanAttempt
deriving DecidableEq, Repr

/-- `CartRecoveryService.createRecoveryPlan` (`analytics.js` lines 476-496):
for each fixed interval, intersect its default channels with the strategy's
channels; a non-empty intersection contributes one attempt scheduled at
`now + hours` from abandonment, an empty one contributes nothing. -/
def createRecoveryPlan (findTemplate : TemplateQuery) (now : Int) (cart : Cart)
    (customer : Customer) (strategy : RecoveryStrategy) : RecoveryPlan :=
  { cartId := cart.id
    customerId := customer.id
    strategy := strategy
    attempts := RECOVERY_INTERVALS.foldl (fun attempts interval =>
      let channels := interval.channels.filter (fun c => strategy.channels.contains c)
      if channels.length > 0 then
        attempts ++ [{ scheduledFor := now + (interval.hours : Int) * 60 * 60 * 1000,
                       channels := channels,
                       templates := selectTemplates findTemplate strategy channels }]
      else attempts) [] }

/-- The state the abandonment sweep acts on: the cart and customer
collections, the segmentation cache, the A/B-test keys, the stored recovery
plans (`cart:<id>:recovery_plan`, value plus TTL seconds), the abandonment
stat counters and the random stream. -/
structure RecoveryWorld where
  carts : List Cart
  customers : KV Customer
  seg : SegState
  ab : ABState
  plans : KV (RecoveryPlan × Nat)
  stats : KV Int
  rng : List ℚ
deriving Repr

/-- Collaborator data the sweep reads. -/
structure OrchestratorEnv where
  segEnv : SegEnv
  findTemplate : TemplateQuery

/-- The filter of `detectAbandonedCarts`:
`{status:'active', lastActivity:{$lt: now - THRESHOLD}, items:{$ne: []}}`. -/
def abandonedCartQuery (now : Int) (cart : Cart) : Bool :=
  decide (cart.status = CartStatus.active ∧
          cart.lastActivity < now - ABANDONMENT_THRESHOLD ∧
          cart.items ≠ [])

/-- A mongoose document `save` writes the document back over the stored copy
with the same `_id`. -/
def saveCartInList (carts : List Cart) (cart : Cart) : List Cart :=
  carts.map (fun c => if c.id == cart.id then cart else c)

/-- `CartRecoveryService.logAbandonment`. -/
def logAbandonment (stats : KV Int) (cart : Cart) (dateKey : String) : KV Int :=
  let stats := hincrby stats "stats:abandonments:total" 1
  let stats := hincrby stats "stats:abandonments:value" ⌊cart.totalValue⌋
  hincrby stats ("stats:abandonments:" ++ dateKey) 1

/-- `CartRecoveryService.processAbandonedCart` (`analytics.js` lines
412-431): abandon the cart (saved immediately), classify the customer, build
the strategy and the plan, store the plan with a 7-day TTL (`setex`
overwrites any previous plan for the cart), log the abandonment.  The
per-cart `try/catch` contains failures: a missing populated customer or a
throwing segmentation rule leaves the cart abandoned with no plan stored.
Scheduling of the first attempt is an in-process `setTimeout` and holds no
persistent state. -/
def processAbandonedCart (env : OrchestratorEnv) (now : Int) (dateKey : String)
    (w : RecoveryWorld) (cart0 : Cart) : RecoveryWorld :=
  let cart := Cart.abandon cart0 now
  let w := { w with carts := saveCartInList w.carts cart }
  match kvGet w.customers cart.customerId with
  | none => w
  | some customer =>
    match segmentCustomer defaultRules env.segEnv w.seg customer with
    | (seg, Except.error _) => { w with seg := seg }
    | (seg, Except.ok segments) =>
      let w := { w with seg := seg }
      let (strategy, ab, rng) := determineRecoveryStrategy cart customer segments w.ab w.rng
      let w := { w with ab := ab, rng := rng }
      let plan := createRecoveryPlan env.findTemplate now cart customer strategy
      let planKey := "cart:" ++ cart.id ++ ":recovery_plan"
      let w := { w with plans := kvSet w.plans planKey (plan, 7 * 24 * 60 * 60) }
      { w with stats := logAbandonment w.stats cart dateKey }

/-- `CartRecoveryService.detectAbandonedCarts` (`analytics.js` lines
394-410): evaluate the query once against the current cart collection, then
process each match in order.  Also returns the ids of the carts the sweep
processed. -/
def detectAbandonedCarts (env : OrchestratorEnv) (now : Int) (dateKey : String)
    (w : RecoveryWorld) : RecoveryWorld × List String :=
  let selected := w.carts.filter (abandonedCartQuery now)
  (selected.foldl (fun w cart => processAbandonedCart env now dateKey w cart) w,
   selected.map (fun c => c.id))

/-! ## Claim theorems -/

/-- A concrete active cart used by the C5 theorems. -/
def c5ActiveCart : Cart :=
  { id := "cart1", customerId := "cust1",
    items := [{ productId := "p1", quantity := 1, price := 10 }],
    status := CartStatus.active, totalValue := 10, lastActivity := 0,
    abandonedAt := none, recoveryAttempts := [] }

/-- A concrete converted cart used by the C5 witness. -/
def c5ConvertedCart : Cart :=
  { c5ActiveCart with status := CartStatus.converted }

/-- C5 counterexample: `convert()` carries no status guard, so it moves an
`active` cart straight to `converted` — a transition the claimed state
machine (`converted` reachable only from `abandoned`) forbids. -/
theorem C5_counterexample :
    c5ActiveCart.status = CartStatus.active ∧
    (Cart.convert c5ActiveCart).status = CartStatus.converted := by
  exact ⟨rfl, rfl⟩

/-- C5 (amended): `abandon` transitions only `active` carts (any other cart
is returned untouched), `recover` only `abandoned` ones, `expire` sets
`expired` from any status, `convert` sets `converted` unconditionally from
any status (not only from `abandoned`), and `updateRecoveryResponse` sets
`converted` exactly when an attempt with the given id exists and the
response is `converted`, leaving the status unchanged otherwise. -/
theorem C5_amended (c : Cart) (now : Int) (aid : String) (r : RecoveryResponse) :
    ((Cart.abandon c now).status =
      if c.status = CartStatus.active then CartStatus.abandoned else c.status) ∧
    (c.status ≠ CartStatus.active → Cart.abandon c now = c) ∧
    ((Cart.recover c now).status =
      if c.status = CartStatus.abandoned then CartStatus.active else c.status) ∧
    (c.status ≠ CartStatus.abandoned → Cart.recover c now = c) ∧
    (Cart.convert c).status = CartStatus.converted ∧
    (Cart.expire c).status = CartStatus.expired ∧
    ((Cart.updateRecoveryResponse c aid r).status =
      if c.recoveryAttempts.any (fun a => a.attemptId == aid) ∧
          r = RecoveryResponse.converted
      then CartStatus.converted else c.status) := by
  refine ⟨?_, fun h => ?_, ?_, fun h => ?_, rfl, rfl, ?_⟩
  · by_cases h : c.status = CartStatus.active <;> simp [Cart.abandon, saveCart, h]
  · simp [Cart.abandon, h]
  · by_cases h : c.status = CartStatus.abandoned <;> simp [Cart.recover, saveCart, h]
  · simp [Cart.recover, h]
  · by_cases h1 : c.recoveryAttempts.any (fun a => a.attemptId == aid) <;>
      by_cases h2 : r = RecoveryResponse.converted <;>
      simp [Cart.updateRecoveryResponse, saveCart, h1, h2]

/-- C5 amended witness at a concrete input. -/
theorem C5_amended_witness :
    c5ConvertedCart.status ≠ CartStatus.active ∧
    Cart.abandon c5ConvertedCart 5 = c5ConvertedCart :=
  ⟨by decide,
   (C5_amended c5ConvertedCart 5 "a1" RecoveryResponse.opened).2.1 (by decide)⟩

/-- C6: `calculateGrowthRates` leaves the first bucket's growth rate at 0
and gives every later bucket the rate
`(current.revenue - previous.revenue) / previous.revenue * 100` (stated for
chronologically ordered input with non-zero previous revenue, where the
exact rational division agrees with the JS double division). -/
theorem C6_growth_rates (results : List RevenueBucket) :
    (∀ b, results[0]? = some b →
      (calculateGrowthRates results)[0]? =
        some { toRevenueBucket := b, growthRate := 0 }) ∧
    (∀ i prev cur, results[i]? = some prev → results[i + 1]? = some cur →
      prev.revenue ≠ 0 →
      (calculateGrowthRates results)[i + 1]? =
        some { toRevenueBucket := cur,
               growthRate := ((cur.revenue - prev.revenue) / prev.revenue) * 100 }) := by
  constructor
  · intro b hb
    simp [calculateGrowthRates, List.getElem?_map, List.getElem?_enum, hb]
  · intro i prev cur hprev hcur _
    simp [calculateGrowthRates, List.getElem?_map, List.getElem?_enum, hcur, hprev]

/-- The spec's growth-rate example buckets (revenues 100, 150, 90). -/
def c6Buckets : List RevenueBucket :=
  [{ bucketId := "b1", revenue := 100, orders := 1, averageOrderValue := 100 },
   { bucketId := "b2", revenue := 150, orders := 1, averageOrderValue := 150 },
   { bucketId := "b3", revenue := 90, orders := 1, averageOrderValue := 90 }]

/-- C6 witness: on revenues [100, 150, 90] the growth rates are
[0, 50, -40]. -/
theorem C6_growth_rates_witness :
    (calculateGrowthRates c6Buckets)[0]? =
      some { toRevenueBucket := c6Buckets[0], growthRate := 0 } ∧
    (calculateGrowthRates c6Buckets)[1]? =
      some { toRevenueBucket := c6Buckets[1], growthRate := 50 } ∧
    (calculateGrowthRates c6Buckets)[2]? =
      some { toRevenueBucket := c6Buckets[2], growthRate := -40 } := by
  refine ⟨(C6_growth_rates c6Buckets).1 c6Buckets[0] rfl, ?_, ?_⟩
  · have h := (C6_growth_rates c6Buckets).2 0 c6Buckets[0] c6Buckets[1] rfl rfl (by decide)
    exact h.trans (by norm_num [c6Buckets])
  · have h := (C6_growth_rates c6Buckets).2 1 c6Buckets[1] c6Buckets[2] rfl rfl (by decide)
    exact h.trans (by norm_num [c6Buckets])

/-- C10: when the customer has at least one order and the first fetched
order was created less than one day before now, the floored
days-since-first-purchase denominator is 0; the rule raises no error and
returns `frequent_buyer` (JS evaluates `orders.length / 0` to `Infinity`,
which passes the `>= 0.5` threshold). -/
theorem C10_zero_day_division (env : SegEnv) (customer : Customer)
    (firstOrder : Order) (rest : List Order)
    (hfetch : env.orders.filter (fun o => o.customerId == customer.id) =
      firstOrder :: rest)
    (h0 : 0 ≤ env.now - firstOrder.createdAt)
    (h1 : env.now - firstOrder.createdAt < 86400000) :
    purchaseFrequencyRule env customer = ["frequent_buyer"] := by
  have hz : Int.fdiv (env.now - firstOrder.createdAt) 86400000 = 0 := by
    rw [Int.fdiv_eq_ediv _ (by norm_num)]
    exact Int.ediv_eq_zero_of_lt h0 h1
  simp only [purchaseFrequencyRule, hfetch]
  simp [hz]

/-- The environment of the C10 witness: one order placed 1000 ms ago. -/
def c10Env : SegEnv :=
  { orders := [{ id := "o1", customerId := "c10", total := 50, items := [],
                 createdAt := 999000 }],
    messageCount := fun _ => 0, now := 1000000 }

/-- The customer of the C10 witness. -/
def c10Customer : Customer :=
  { id := "c10", customerType := CustomerType.individual,
    metrics := { totalOrders := 1, totalSpent := 50, averageOrderValue := 50,
                 firstPurchaseDate := some 999000, lastPurchaseDate := some 999000 },
    loyaltyTier := LoyaltyTier.bronze,
    contactPreferences := { email := true, sms := false, whatsapp := false },
    segments := [] }

/-- C10 witness at a concrete order placed 1000 ms before now. -/
theorem C10_zero_day_division_witness :
    purchaseFrequencyRule c10Env c10Customer = ["frequent_buyer"] :=
  C10_zero_day_division c10Env c10Customer
    { id := "o1", customerId := "c10", total := 50, items := [], createdAt := 999000 }
    [] (by decide) (by decide) (by decide)

/-- C7 (code evaluated at the failing input): `assignABTestVariant` mutates
only the sticky-assignment key — no impression counter is incremented at
assignment (nor anywhere else in the repository) — so after assigning the
`timing` variant to customer `c1` in a fresh state the counter keyspace is
still empty, and the subsequent `updateABTestResults` reports no conversion
rate for any experiment (the impressions keys are absent) even though it
just incremented the conversions counters. -/
theorem C7_no_impression_at_assignment :
    (∀ testName customerId ab rng,
      ((assignABTestVariant testName customerId ab rng).2.1).counters = ab.counters) ∧
    (assignABTestVariant "timing" "c1" { assignments := [], counters := [] }
        [3/10]).1 = some "immediate" ∧
    ((assignABTestVariant "timing" "c1" { assignments := [], counters := [] }
        [3/10]).2.1).counters = [] ∧
    (updateABTestResults "c1"
        (assignABTestVariant "timing" "c1" { assignments := [], counters := [] }
          [3/10]).2.1 []).1 = [] ∧
    kvGet ((updateABTestResults "c1"
        (assignABTestVariant "timing" "c1" { assignments := [], counters := [] }
          [3/10]).2.1 []).2.1).counters "abtest:timing:immediate:conversions" =
      some 1 := by
  refine ⟨?_, ?one, ?two, ?three, ?four⟩
  case one =>
    have hfind : abTests.find? (fun t => t.1 == "timing") =
        some ("timing", { variants := ["immediate", "delayed"], distribution := [1/2, 1/2], active := true }) := rfl
    simp [assignABTestVariant, hfind, kvGet, selectVariant, selectVariantLoop, drawRandom]
    norm_num
  case two =>
    have hfind : abTests.find? (fun t => t.1 == "timing") =
        some ("timing", { variants := ["immediate", "delayed"], distribution := [1/2, 1/2], active := true }) := rfl
    simp [assignABTestVariant, hfind, kvGet, selectVariant, selectVariantLoop, drawRandom]
  case three =>
    have hcmp : ((3:ℚ)/10) ≤ 2⁻¹ := by norm_num
    have hcmp2 : ((0:ℚ)) ≤ 33/100 := by norm_num
    have hcmp3 : ((0:ℚ)) ≤ 2⁻¹ := by norm_num
    simp +decide [updateABTestResults, updateABTestResultsLoop, assignABTestVariant, abTests,
      List.find?, kvGet, kvSet, hincrby, selectVariant, selectVariantLoop, drawRandom,
      hcmp, hcmp2, hcmp3]
  case four =>
    have hcmp : ((3:ℚ)/10) ≤ 2⁻¹ := by norm_num
    have hcmp2 : ((0:ℚ)) ≤ 33/100 := by norm_num
    have hcmp3 : ((0:ℚ)) ≤ 2⁻¹ := by norm_num
    simp +decide [updateABTestResults, updateABTestResultsLoop, assignABTestVariant, abTests,
      List.find?, kvGet, kvSet, hincrby, selectVariant, selectVariantLoop, drawRandom,
      hcmp, hcmp2, hcmp3]
  intro testName customerId ab rng
  unfold assignABTestVariant
  repeat' split
  all_goals try rfl
  all_goals cases hkv : kvGet ab.assignments ("abtest:" ++ testName ++ ":" ++ customerId) <;> simp [hkv]

/-- The allowed-channel set exactly as the claim words it: `whatsapp+email`
when the segments include `high_value` or the cart value exceeds 1000,
otherwise `email` only; minus `whatsapp` when the customer's
`contactPreferences.whatsapp` is false. -/
def allowedChannelsSpec (segments : List String) (totalValue : ℚ)
    (whatsappPref : Bool) : List Channel :=
  let base :=
    if segments.contains "high_value" ∨ totalValue > 1000
    then [Channel.whatsapp, Channel.email] else [Channel.email]
  if whatsappPref then base else base.filter (fun c => c ≠ Channel.whatsapp)

/-- C1: the strategy's channel set equals the claim's allowed-channel set,
and the plan carries exactly one attempt per recovery interval whose default
channels meet the allowed set — the attempt's channel list being exactly
that intersection — while intervals with an empty intersection are
omitted. -/
theorem C1_recovery_plan_channels (cart : Cart) (customer : Customer)
    (segments : List String) (ab : ABState) (rng : List ℚ)
    (findTemplate : TemplateQuery) (now : Int) :
    ((determineRecoveryStrategy cart customer segments ab rng).1).channels =
      allowedChannelsSpec segments cart.totalValue
        customer.contactPreferences.whatsapp ∧
    (createRecoveryPlan findTemplate now cart customer
        (determineRecoveryStrategy cart customer segments ab rng).1).attempts =
      RECOVERY_INTERVALS.filterMap (fun interval =>
        let attemptChannels := interval.channels.filter (fun c =>
          decide (c ∈ allowedChannelsSpec segments cart.totalValue
            customer.contactPreferences.whatsapp))
        if attemptChannels.isEmpty then none
        else some { scheduledFor := now + (interval.hours : Int) * 60 * 60 * 1000,
                    channels := attemptChannels,
                    templates := selectTemplates findTemplate
                      (determineRecoveryStrategy cart customer segments ab rng).1
                      attemptChannels }) := by
  have hchan : ((determineRecoveryStrategy cart customer segments ab rng).1).channels =
      allowedChannelsSpec segments cart.totalValue customer.contactPreferences.whatsapp := by
    by_cases h1 : "high_value" ∈ segments <;>
      by_cases h2 : cart.totalValue > 1000 <;>
      by_cases h3 : customer.contactPreferences.whatsapp <;>
      simp [determineRecoveryStrategy, allowedChannelsSpec, h1, h2, h3]
  refine ⟨hchan, ?_⟩
  unfold createRecoveryPlan
  simp only [hchan, RECOVERY_INTERVALS, List.foldl, List.filterMap]
  by_cases h1 : "high_value" ∈ segments <;>
    by_cases h2 : cart.totalValue > 1000 <;>
    by_cases h3 : customer.contactPreferences.whatsapp <;>
    simp [allowedChannelsSpec, h1, h2, h3, List.filter, selectTemplates]

theorem mem_setAdd (s : List String) (x a : String) :
    a ∈ setAdd s x ↔ a ∈ s ∨ a = x := by
  by_cases hx : x ∈ s
  · simp only [setAdd, hx, if_true]
    constructor
    · exact Or.inl
    · rintro (h | rfl)
      · exact h
      · exact hx
  · simp [setAdd, hx]

theorem nodup_setAdd (s : List String) (x : String) (h : s.Nodup) :
    (setAdd s x).Nodup := by
  by_cases hx : x ∈ s
  · simpa [setAdd, hx] using h
  · simp [setAdd, hx, List.nodup_append, h]

theorem mem_setAddAll (s : List String) (xs : List String) (a : String) :
    a ∈ setAddAll s xs ↔ a ∈ s ∨ a ∈ xs := by
  induction xs generalizing s with
  | nil => simp [setAddAll]
  | cons x rest ih =>
    simp only [setAddAll, List.foldl_cons] at ih ⊢
    rw [ih, mem_setAdd]
    simp only [or_assoc, List.mem_cons]

theorem nodup_setAddAll (s : List String) (xs : List String) (h : s.Nodup) :
    (setAddAll s xs).Nodup := by
  induction xs generalizing s with
  | nil => simpa [setAddAll]
  | cons x rest ih =>
    simp only [setAddAll, List.foldl_cons] at ih ⊢
    exact ih _ (nodup_setAdd s x h)

/-- C2: on a cache miss, `segmentCustomer` with the default registry
returns a duplicate-free label set containing exactly the union of the four
default rules' labels (evaluated in registration order — frequency, spend,
engagement, recency), plus `business_account` exactly when the customer's
type is business, plus `loyalty_<tier>`, and caches that final set under the
customer's id with the 1-hour (3600 s) TTL before returning it. -/
theorem C2_classify_on_miss (env : SegEnv) (st : SegState) (customer : Customer)
    (hmiss : kvGet st.segmentsCache ("customer:" ++ customer.id ++ ":segments") = none) :
    ∃ labels msgCache,
      segmentCustomer defaultRules env st customer =
        ({ segmentsCache := kvSet st.segmentsCache
             ("customer:" ++ customer.id ++ ":segments") (labels, 3600),
           messageCountCache := msgCache }, Except.ok labels) ∧
      labels.Nodup ∧
      (∀ l, l ∈ labels ↔
        (l ∈ purchaseFrequencyRule env customer ∨
         l ∈ spendingLevelRule customer ∨
         l ∈ (engagementLevelRule env st.messageCountCache customer).1 ∨
         l ∈ purchaseRecencyRule env customer ∨
         (customer.customerType = CustomerType.business ∧ l = "business_account") ∨
         l = "loyalty_" ++ customer.loyaltyTier.name)) := by
  have hrun : runRules defaultRules env st.messageCountCache customer [] =
      ((engagementLevelRule env st.messageCountCache customer).2,
       Except.ok (setAddAll (setAddAll (setAddAll (setAddAll []
         (purchaseFrequencyRule env customer))
         (spendingLevelRule customer))
         ((engagementLevelRule env st.messageCountCache customer).1))
         (purchaseRecencyRule env customer))) := by
    simp [runRules, defaultRules]
  refine ⟨setAdd
      (if customer.customerType = CustomerType.business
       then setAdd (setAddAll (setAddAll (setAddAll (setAddAll []
              (purchaseFrequencyRule env customer))
              (spendingLevelRule customer))
              ((engagementLevelRule env st.messageCountCache customer).1))
              (purchaseRecencyRule env customer)) "business_account"
       else setAddAll (setAddAll (setAddAll (setAddAll []
              (purchaseFrequencyRule env customer))
              (spendingLevelRule customer))
              ((engagementLevelRule env st.messageCountCache customer).1))
              (purchaseRecencyRule env customer))
      ("loyalty_" ++ customer.loyaltyTier.name),
    (engagementLevelRule env st.messageCountCache customer).2, ?_, ?_, ?_⟩
  · simp only [segmentCustomer, hmiss, hrun, CACHE_TTL]
  · apply nodup_setAdd
    by_cases hb : customer.customerType = CustomerType.business <;>
      simp only [hb, if_true, if_false, reduceIte] <;>
      [apply nodup_setAdd; skip] <;>
      (apply nodup_setAddAll; apply nodup_setAddAll; apply nodup_setAddAll;
       apply nodup_setAddAll; exact List.nodup_nil)
  · intro l
    rw [mem_setAdd]
    by_cases hb : customer.customerType = CustomerType.business <;>
      simp only [hb, if_true, if_false, reduceIte, mem_setAdd,
        mem_setAddAll, List.not_mem_nil, false_or] <;> tauto

/-- Concrete customer for the C2 witness. -/
def c2Customer : Customer :=
  { id := "c2", customerType := CustomerType.business,
    metrics := { totalOrders := 0, totalSpent := 0, averageOrderValue := 0,
                 firstPurchaseDate := none, lastPurchaseDate := none },
    loyaltyTier := LoyaltyTier.gold,
    contactPreferences := { email := true, sms := false, whatsapp := true },
    segments := [] }

/-- Concrete environment for the C2 witness. -/
def c2Env : SegEnv :=
  { orders := [], messageCount := fun _ => 0, now := 0 }

/-- C2 witness: the empty cache misses, so the theorem applies. -/
theorem C2_classify_on_miss_witness :
    kvGet ({ segmentsCache := [], messageCountCache := [] } : SegState).segmentsCache
        ("customer:" ++ c2Customer.id ++ ":segments") = none ∧
    (∃ labels msgCache,
      segmentCustomer defaultRules c2Env
          { segmentsCache := [], messageCountCache := [] } c2Customer =
        ({ segmentsCache := kvSet ({ segmentsCache := [], messageCountCache := [] } : SegState).segmentsCache
             ("customer:" ++ c2Customer.id ++ ":segments") (labels, 3600),
           messageCountCache := msgCache }, Except.ok labels) ∧
      labels.Nodup ∧
      (∀ l, l ∈ labels ↔
        (l ∈ purchaseFrequencyRule c2Env c2Customer ∨
         l ∈ spendingLevelRule c2Customer ∨
         l ∈ (engagementLevelRule c2Env
               ({ segmentsCache := [], messageCountCache := [] } : SegState).messageCountCache
               c2Customer).1 ∨
         l ∈ purchaseRecencyRule c2Env c2Customer ∨
         (c2Customer.customerType = CustomerType.business ∧ l = "business_account") ∨
         l = "loyalty_" ++ c2Customer.loyaltyTier.name))) :=
  ⟨rfl, C2_classify_on_miss c2Env { segmentsCache := [], messageCountCache := [] }
    c2Customer rfl⟩

/-- Splitting the rule loop at an append: the tail runs from the state and
accumulator the prefix produced, unless the prefix already failed. -/
theorem runRules_append (rules1 rules2 : List (String × SegRule)) (env : SegEnv)
    (m : KV (Nat × Nat)) (c : Customer) (acc : List String) :
    runRules (rules1 ++ rules2) env m c acc =
      match runRules rules1 env m c acc with
      | (m1, Except.ok acc1) => runRules rules2 env m1 c acc1
      | (m1, Except.error e) => (m1, Except.error e) := by
  induction rules1 generalizing m acc with
  | nil => simp [runRules]
  | cons r rest ih =>
    rcases r with ⟨name, ruleFn⟩
    simp only [List.cons_append, runRules]
    rcases hr : ruleFn env m c with ⟨m2, res⟩
    cases res with
    | error e => simp
    | ok segs => simp [ih]

/-- C4: a rule returning an error aborts the classification: `classify`
surfaces exactly that error (the catch block logs and rethrows — the spec's
taxonomy calls this surfaced failure a `ClassificationError`), returns no
label set, leaves the cached classification entry untouched, and — through
`updateCustomerSegments`, the only writer of `customer.segments` — leaves
the persisted customer record untouched as well. -/
theorem C4_rule_error_aborts (pre post : List (String × SegRule)) (name : String)
    (r : SegRule) (env : SegEnv) (st : SegState) (customer : Customer) (e : String)
    (msgCache1 msgCache2 : KV (Nat × Nat)) (acc : List String)
    (hmiss : kvGet st.segmentsCache ("customer:" ++ customer.id ++ ":segments") = none)
    (hpre : runRules pre env st.messageCountCache customer [] = (msgCache1, Except.ok acc))
    (hthrow : r env msgCache1 customer = (msgCache2, Except.error e)) :
    segmentCustomer (pre ++ (name, r) :: post) env st customer =
      ({ st with messageCountCache := msgCache2 }, Except.error e) ∧
    ({ st with messageCountCache := msgCache2 } : SegState).segmentsCache =
      st.segmentsCache ∧
    (∀ w : SegWorld, w.cache = st → kvGet w.customers customer.id = some customer →
      (updateCustomerSegments (pre ++ (name, r) :: post) env w customer.id).1.customers =
        w.customers ∧
      (updateCustomerSegments (pre ++ (name, r) :: post) env w customer.id).2 =
        Except.error e) := by
  have hseg : segmentCustomer (pre ++ (name, r) :: post) env st customer =
      ({ st with messageCountCache := msgCache2 }, Except.error e) := by
    simp only [segmentCustomer, hmiss, runRules_append, hpre, runRules, hthrow]
  refine ⟨hseg, rfl, ?_⟩
  intro w hw hcust
  rw [← hw] at hseg
  simp only [updateCustomerSegments, hcust, hseg]
  trivial

/-- A registry entry that always throws, for the C4 witness. -/
def c4BoomRule : SegRule :=
  fun _ m _ => (m, Except.error "boom")

/-- C4 witness: a single-entry registry whose rule throws. -/
theorem C4_rule_error_aborts_witness :
    runRules [] c2Env ([] : KV (Nat × Nat)) c2Customer [] = ([], Except.ok []) ∧
    c4BoomRule c2Env [] c2Customer = ([], Except.error "boom") ∧
    segmentCustomer ([] ++ ("boom", c4BoomRule) :: []) c2Env
        { segmentsCache := [], messageCountCache := [] } c2Customer =
      ({ segmentsCache := [], messageCountCache := [] }, Except.error "boom") := by
  refine ⟨rfl, rfl, ?_⟩
  exact (C4_rule_error_aborts [] [] "boom" c4BoomRule c2Env
    { segmentsCache := [], messageCountCache := [] } c2Customer "boom"
    [] [] [] rfl rfl rfl).1

/-- The default registry never throws: `segmentCustomer` with the default
rules always returns a label list. -/
theorem segmentCustomer_defaultRules_ok (env : SegEnv) (st : SegState)
    (customer : Customer) :
    ∃ labels, (segmentCustomer defaultRules env st customer).2 =
      Except.ok labels := by
  rcases hres : segmentCustomer defaultRules env st customer with ⟨st2, res⟩
  cases res with
  | ok labels => exact ⟨labels, rfl⟩

  | error e =>
    exfalso
    rcases hhit : kvGet st.segmentsCache ("customer:" ++ customer.id ++ ":segments")
      with _ | cached
    · have hrun : runRules defaultRules env st.messageCountCache customer [] =
          ((engagementLevelRule env st.messageCountCache customer).2,
           Except.ok (setAddAll (setAddAll (setAddAll (setAddAll []
             (purchaseFrequencyRule env customer))
             (spendingLevelRule customer))
             ((engagementLevelRule env st.messageCountCache customer).1))
             (purchaseRecencyRule env customer))) := by
        simp [runRules, defaultRules]
      simp only [segmentCustomer, hhit, hrun, Prod.mk.injEq] at hres
      exact Except.noConfusion hres.2
    · simp only [segmentCustomer, hhit, Prod.mk.injEq] at hres
      exact Except.noConfusion hres.2

/-- Data for the C8 counterexample and witness: a customer whose fresh
classification differs from a stale cached entry. -/
def c8Customer : Customer :=
  { id := "c8", customerType := CustomerType.individual,
    metrics := { totalOrders := 0, totalSpent := 0, averageOrderValue := 0,
                 firstPurchaseDate := none, lastPurchaseDate := none },
    loyaltyTier := LoyaltyTier.bronze,
    contactPreferences := { email := true, sms := false, whatsapp := false },
    segments := [] }

def c8Env : SegEnv :=
  { orders := [], messageCount := fun _ => 0, now := 0 }

def c8World : SegWorld :=
  { customers := [("c8", c8Customer)],
    cache := { segmentsCache := [("customer:c8:segments", (["stale_label"], 3600))],
               messageCountCache := [] } }

/-- C8 counterexample: with a cached classification present, refresh
(`updateCustomerSegments`) returns the stale cached label set instead of
recomputing from the customer's current data — the fresh computation yields
a different set. -/
theorem C8_counterexample :
    (updateCustomerSegments defaultRules c8Env c8World "c8").2 =
      Except.ok ["stale_label"] ∧
    (segmentCustomer defaultRules c8Env
        { segmentsCache := [], messageCountCache := [] } c8Customer).2 =
      Except.ok ["new_customer", "low_value", "low_engagement", "never_purchased",
                 "loyalty_bronze"] ∧
    (["stale_label"] : List String) ≠
      ["new_customer", "low_value", "low_engagement", "never_purchased",
       "loyalty_bronze"] := by
  refine ⟨rfl, rfl, by decide⟩

/-- C8 (amended): for a customer present in the store, refresh returns
whatever `classify` returns — the cached classification when one exists,
a fresh computation only on a miss — persists that returned set onto the
customer record, and leaves the cached classification invalidated when it
returns. -/
theorem C8_refresh_amended (env : SegEnv) (w : SegWorld) (customerId : String)
    (customer : Customer)
    (hfind : kvGet w.customers customerId = some customer)
    (hid : customer.id = customerId) :
    ∃ labels w',
      updateCustomerSegments defaultRules env w customerId =
        (w', Except.ok labels) ∧
      (segmentCustomer defaultRules env w.cache customer).2 = Except.ok labels ∧
      (∀ cached, kvGet w.cache.segmentsCache
          ("customer:" ++ customerId ++ ":segments") = some cached →
        labels = cached.1) ∧
      kvGet w'.customers customerId = some { customer with segments := labels } ∧
      kvGet w'.cache.segmentsCache ("customer:" ++ customerId ++ ":segments") =
        none := by
  obtain ⟨labels, hseg2⟩ := segmentCustomer_defaultRules_ok env w.cache customer
  rcases hres : segmentCustomer defaultRules env w.cache customer with ⟨st1, res⟩
  rw [hres] at hseg2
  cases hseg2
  refine ⟨labels,
    { customers := kvSet w.customers customerId { customer with segments := labels },
      cache := { st1 with
        segmentsCache := kvDel st1.segmentsCache
          ("customer:" ++ customerId ++ ":segments") } }, ?_, ?_, ?_, ?_, ?_⟩
  · simp only [updateCustomerSegments, hfind, hres]
  · rfl
  · intro cached hhit
    rw [← hid] at hhit
    have hc : segmentCustomer defaultRules env w.cache customer =
        (w.cache, Except.ok cached.1) := by
      simp only [segmentCustomer, hhit]
    rw [hres, Prod.mk.injEq] at hc
    exact (Except.ok.injEq _ _).mp hc.2
  · simp only [updateCustomerSegments, hfind, hres, kvGet_kvSet_same]
  · simp only [updateCustomerSegments, hfind, hres, kvGet_kvDel_same]

/-- C8 amended witness at the concrete stale-cache world: the returned and
persisted set is the cached one. -/
theorem C8_refresh_amended_witness :
    kvGet c8World.customers "c8" = some c8Customer ∧
    (∃ labels w',
      updateCustomerSegments defaultRules c8Env c8World "c8" =
        (w', Except.ok labels) ∧
      (segmentCustomer defaultRules c8Env c8World.cache c8Customer).2 =
        Except.ok labels ∧
      (∀ cached, kvGet c8World.cache.segmentsCache
          ("customer:" ++ "c8" ++ ":segments") = some cached →
        labels = cached.1) ∧
      kvGet w'.customers "c8" = some { c8Customer with segments := labels } ∧
      kvGet w'.cache.segmentsCache ("customer:" ++ "c8" ++ ":segments") = none) :=
  ⟨by decide, C8_refresh_amended c8Env c8World "c8" c8Customer (by decide) rfl⟩

/-- The event payload `trackSaleEvent` builds for an order ingested at
`now` (named for use in the C3 statement). -/
def saleEventDataOf (order : Order) (now : Int) : SaleEventData :=
  { orderId := order.id, amount := order.total, customerId := order.customerId,
    items := order.items.length, timestamp := now }

/-- C3: ingesting a sale at time `now` (a) adds the event with its timestamp
as score, (b) leaves no entry with a non-negative score at or below
`now - window`, (c) makes any query strictly later than `now + window`
(window 300 s, in ms) return exactly the stats of the pre-ingest state — the
event contributes zero — and (d) makes any query from `now` up to (but
excluding) `now + window` still count the event: its payload heads the
orders list and contributes its amount and one sale to the totals. -/
theorem C3_sliding_window (customers : KV Customer) (st : AnalyticsState)
    (order : Order) (now : Int) (dateKey : String) (q : Int) :
    ((now, saleEventDataOf order now) ∈
        (trackSaleEvent customers st order now dateKey).salesRealtime) ∧
    (∀ entry ∈ (trackSaleEvent customers st order now dateKey).salesRealtime,
        0 ≤ entry.1 → now - REAL_TIME_WINDOW * 1000 < entry.1) ∧
    (q > now + REAL_TIME_WINDOW * 1000 →
        getRealTimeSales (trackSaleEvent customers st order now dateKey) q =
          getRealTimeSales st q) ∧
    (now ≤ q → q < now + REAL_TIME_WINDOW * 1000 →
        ∃ rest,
          (getRealTimeSales (trackSaleEvent customers st order now dateKey) q).orders =
            saleEventDataOf order now :: rest ∧
          (getRealTimeSales (trackSaleEvent customers st order now dateKey) q).totalRevenue =
            order.total + (rest.map (fun d => d.amount)).sum ∧
          (getRealTimeSales (trackSaleEvent customers st order now dateKey) q).totalSales =
            rest.length + 1) := by
  have hrt : (trackSaleEvent customers st order now dateKey).salesRealtime =
      ((now, saleEventDataOf order now) :: st.salesRealtime).filter
        (fun e => !(decide (0 ≤ e.1 ∧ e.1 ≤ now - REAL_TIME_WINDOW * 1000))) := rfl
  have hpruneHead : (fun e : Int × SaleEventData =>
      !(decide (0 ≤ e.1 ∧ e.1 ≤ now - REAL_TIME_WINDOW * 1000)))
        (now, saleEventDataOf order now) = true := by
    simp only [Bool.not_eq_true', decide_eq_false_iff_not]
    rintro ⟨-, h2⟩
    simp only [REAL_TIME_WINDOW] at h2
    omega
  refine ⟨?_, ?_, ?_, ?_⟩
  · rw [hrt]
    exact List.mem_filter_of_mem (List.mem_cons_self _ _) hpruneHead
  · intro entry hentry h0
    rw [hrt] at hentry
    have hp := List.of_mem_filter hentry
    simp only [Bool.not_eq_true', decide_eq_false_iff_not] at hp
    omega
  · intro hq
    have hevents :
        (trackSaleEvent customers st order now dateKey).salesRealtime.filter
            (fun e => decide (q - REAL_TIME_WINDOW * 1000 ≤ e.1 ∧ e.1 ≤ q)) =
          st.salesRealtime.filter
            (fun e => decide (q - REAL_TIME_WINDOW * 1000 ≤ e.1 ∧ e.1 ≤ q)) := by
      rw [hrt, List.filter_filter]
      rw [List.filter_cons_of_neg]
      · apply List.filter_congr
        intro x _
        cases hdec : decide (q - REAL_TIME_WINDOW * 1000 ≤ x.1 ∧ x.1 ≤ q) with
        | false => simp
        | true =>
          simp only [Bool.true_and, Bool.not_eq_true', decide_eq_false_iff_not]
          simp only [decide_eq_true_eq] at hdec
          simp only [REAL_TIME_WINDOW] at hdec hq ⊢
          omega
      · simp only [Bool.and_eq_true, decide_eq_true_eq, not_and]
        intro hq2
        simp only [REAL_TIME_WINDOW] at hq2 hq ⊢
        omega
    simp only [getRealTimeSales, hevents]
  · intro hq1 hq2
    have hevents :
        (trackSaleEvent customers st order now dateKey).salesRealtime.filter
            (fun e => decide (q - REAL_TIME_WINDOW * 1000 ≤ e.1 ∧ e.1 ≤ q)) =
          (now, saleEventDataOf order now) ::
            st.salesRealtime.filter (fun e =>
              decide (q - REAL_TIME_WINDOW * 1000 ≤ e.1 ∧ e.1 ≤ q) &&
              !(decide (0 ≤ e.1 ∧ e.1 ≤ now - REAL_TIME_WINDOW * 1000))) := by
      rw [hrt, List.filter_filter]
      rw [List.filter_cons_of_pos]
      simp only [Bool.and_eq_true, decide_eq_true_eq]
      constructor
      · constructor
        · omega
        · exact hq1
      · simp only [Bool.not_eq_true', decide_eq_false_iff_not]
        rintro ⟨-, h2⟩
        simp only [REAL_TIME_WINDOW] at h2
        omega
    refine ⟨(st.salesRealtime.filter (fun e =>
        decide (q - REAL_TIME_WINDOW * 1000 ≤ e.1 ∧ e.1 ≤ q) &&
        !(decide (0 ≤ e.1 ∧ e.1 ≤ now - REAL_TIME_WINDOW * 1000)))).map
          (fun e => e.2), ?_, ?_, ?_⟩
    · simp only [getRealTimeSales, hevents, List.map_cons]
    · simp only [getRealTimeSales, hevents, List.map_cons, List.sum_cons,
        List.map_map]
      rfl
    · simp only [getRealTimeSales, hevents, List.length_cons, List.length_map]

/-- Concrete order for the C3 witness. -/
def c3Order : Order :=
  { id := "o1", customerId := "c1", total := 25, items := [], createdAt := 0 }

/-- Empty analytics state for the C3 witness. -/
def c3State : AnalyticsState :=
  { salesRealtime := [], dailyCounters := [] }

/-- C3 witness: ingest at t = 1000000; a query at t + 300001 ms sees the
pre-ingest stats, a query at t + 1 ms still counts the event. -/
theorem C3_sliding_window_witness :
    getRealTimeSales (trackSaleEvent [] c3State c3Order 1000000 "2026-10-11")
        1300001 =
      getRealTimeSales c3State 1300001 ∧
    (∃ rest,
      (getRealTimeSales (trackSaleEvent [] c3State c3Order 1000000 "2026-10-11")
          1000001).orders = saleEventDataOf c3Order 1000000 :: rest ∧
      (getRealTimeSales (trackSaleEvent [] c3State c3Order 1000000 "2026-10-11")
          1000001).totalRevenue =
        c3Order.total + (rest.map (fun d => d.amount)).sum ∧
      (getRealTimeSales (trackSaleEvent [] c3State c3Order 1000000 "2026-10-11")
          1000001).totalSales = rest.length + 1) := by
  constructor
  · exact (C3_sliding_window [] c3State c3Order 1000000 "2026-10-11" 1300001).2.2.1
      (by norm_num [REAL_TIME_WINDOW])
  · exact (C3_sliding_window [] c3State c3Order 1000000 "2026-10-11" 1000001).2.2.2
      (by norm_num) (by norm_num [REAL_TIME_WINDOW])

/-- Processing an abandoned cart touches the cart collection only through
the initial `cart.abandon()` save. -/
theorem processAbandonedCart_carts (env : OrchestratorEnv) (now : Int)
    (dateKey : String) (w : RecoveryWorld) (cart0 : Cart) :
    (processAbandonedCart env now dateKey w cart0).carts =
      saveCartInList w.carts (Cart.abandon cart0 now) := by
  unfold processAbandonedCart
  dsimp only
  repeat' split
  all_goals rfl

theorem Cart.abandon_id (c : Cart) (now : Int) : (Cart.abandon c now).id = c.id := by
  by_cases h : c.status = CartStatus.active <;> simp [Cart.abandon, saveCart, h]

theorem Cart.abandon_status_of_active (c : Cart) (now : Int)
    (h : c.status = CartStatus.active) :
    (Cart.abandon c now).status = CartStatus.abandoned := by
  simp [Cart.abandon, saveCart, h]

theorem mem_saveCartInList {carts : List Cart} {cart c : Cart}
    (h : c ∈ saveCartInList carts cart) :
    c = cart ∨ (c ∈ carts ∧ c.id ≠ cart.id) := by
  simp only [saveCartInList, List.mem_map] at h
  obtain ⟨c1, hc1, hfc⟩ := h
  by_cases hid : c1.id == cart.id
  · rw [if_pos hid] at hfc
    exact Or.inl hfc.symm
  · rw [if_neg hid] at hfc
    subst hfc
    exact Or.inr ⟨hc1, by simpa using hid⟩

theorem saveCartInList_ids (carts : List Cart) (cart : Cart) :
    (saveCartInList carts cart).map (fun c => c.id) =
      carts.map (fun c => c.id) := by
  simp only [saveCartInList, List.map_map]
  apply List.map_congr_left
  intro c _
  by_cases hid : c.id == cart.id
  · simp only [Function.comp_apply, if_pos hid]
    exact (eq_of_beq hid).symm
  · simp only [Function.comp_apply, if_neg hid]

/-- Every stored cart with id `k` has status `abandoned`. -/
def allAbandonedWithId (carts : List Cart) (k : String) : Prop :=
  ∀ c ∈ carts, c.id = k → c.status = CartStatus.abandoned

theorem allAbandonedWithId_step (carts : List Cart) (cart0 : Cart) (now : Int)
    (k : String) (h0 : cart0.status = CartStatus.active)
    (hk : k = cart0.id ∨ allAbandonedWithId carts k) :
    allAbandonedWithId (saveCartInList carts (Cart.abandon cart0 now)) k := by
  intro c hc hck
  rcases mem_saveCartInList hc with rfl | ⟨hmem, hne⟩
  · exact Cart.abandon_status_of_active cart0 now h0
  · rcases hk with rfl | hP
    · exact absurd (hck.trans (Cart.abandon_id cart0 now).symm) hne
    · exact hP c hmem hck

theorem sweep_fold_abandons (env : OrchestratorEnv) (now : Int) (dateKey : String) :
    ∀ (l : List Cart) (w : RecoveryWorld) (k : String),
    (∀ c0 ∈ l, c0.status = CartStatus.active) →
    ((∃ c0 ∈ l, c0.id = k) ∨ allAbandonedWithId w.carts k) →
    allAbandonedWithId
      ((l.foldl (fun w cart => processAbandonedCart env now dateKey w cart) w).carts)
      k := by
  intro l
  induction l with
  | nil =>
    intro w k _ hk
    rcases hk with ⟨_, h, _⟩ | hP
    · exact absurd h (List.not_mem_nil _)
    · exact hP
  | cons x xs ih =>
    intro w k hact hk
    simp only [List.foldl_cons]
    apply ih
    · intro c0 hc0
      exact hact c0 (List.mem_cons_of_mem _ hc0)
    · have hx : x.status = CartStatus.active := hact x (List.mem_cons_self _ _)
      rcases hk with ⟨c0, hc0, hid⟩ | hP
      · rcases List.mem_cons.mp hc0 with rfl | hc0xs
        · right
          rw [processAbandonedCart_carts]
          exact allAbandonedWithId_step w.carts c0 now k hx (Or.inl hid.symm)
        · exact Or.inl ⟨c0, hc0xs, hid⟩
      · right
        rw [processAbandonedCart_carts]
        exact allAbandonedWithId_step w.carts x now k hx (Or.inr hP)

theorem sweep_fold_ids (env : OrchestratorEnv) (now : Int) (dateKey : String) :
    ∀ (l : List Cart) (w : RecoveryWorld),
    ((l.foldl (fun w cart => processAbandonedCart env now dateKey w cart) w).carts).map
        (fun c => c.id) =
      w.carts.map (fun c => c.id) := by
  intro l
  induction l with
  | nil => intro w; rfl
  | cons x xs ih =>
    intro w
    simp only [List.foldl_cons]
    rw [ih, processAbandonedCart_carts, saveCartInList_ids]

/-- C9: with unique cart ids, running the abandonment sweep twice in
succession (no intervening cart activity) processes no cart twice: the
detection query matches only `active` carts, the first sweep flips every
processed cart to `abandoned`, so every cart processed by the first sweep is
skipped by the second, and at most one recovery plan is created per cart
(each processing stores at most one plan, keyed by cart id). -/
theorem C9_sweep_idempotent (env : OrchestratorEnv) (now now2 : Int)
    (dateKey dateKey2 : String) (w : RecoveryWorld) (cartId : String)
    (hnodup : (w.carts.map (fun c => c.id)).Nodup) :
    (cartId ∈ (detectAbandonedCarts env now dateKey w).2 →
      cartId ∉ (detectAbandonedCarts env now2 dateKey2
        (detectAbandonedCarts env now dateKey w).1).2) ∧
    List.count cartId ((detectAbandonedCarts env now dateKey w).2 ++
      (detectAbandonedCarts env now2 dateKey2
        (detectAbandonedCarts env now dateKey w).1).2) ≤ 1 := by
  have hacts : ∀ c0 ∈ w.carts.filter (abandonedCartQuery now),
      c0.status = CartStatus.active := by
    intro c0 hc0
    have hq := (List.mem_filter.mp hc0).2
    exact (of_decide_eq_true hq).1
  have hdisj : cartId ∈ (detectAbandonedCarts env now dateKey w).2 →
      cartId ∉ (detectAbandonedCarts env now2 dateKey2
        (detectAbandonedCarts env now dateKey w).1).2 := by
    intro h1 h2
    simp only [detectAbandonedCarts, List.mem_map] at h1 h2
    obtain ⟨c0, hc0, hc0id⟩ := h1
    have habd := sweep_fold_abandons env now dateKey
      (w.carts.filter (abandonedCartQuery now)) w cartId hacts
      (Or.inl ⟨c0, hc0, hc0id⟩)
    obtain ⟨c, hc, hcid⟩ := h2
    have hcmem := (List.mem_filter.mp hc).1
    have hcact : c.status = CartStatus.active :=
      (of_decide_eq_true (List.mem_filter.mp hc).2).1
    have hcabd := habd c hcmem hcid
    rw [hcact] at hcabd
    exact CartStatus.noConfusion hcabd
  refine ⟨hdisj, ?_⟩
  have hids2 : ((detectAbandonedCarts env now dateKey w).1.carts).map
      (fun c => c.id) = w.carts.map (fun c => c.id) := by
    simp only [detectAbandonedCarts]
    exact sweep_fold_ids env now dateKey _ w
  have hnd1 : ((detectAbandonedCarts env now dateKey w).2).Nodup := by
    simp only [detectAbandonedCarts]
    exact hnodup.sublist ((List.filter_sublist _).map _)
  have hnd2 : ((detectAbandonedCarts env now2 dateKey2
      (detectAbandonedCarts env now dateKey w).1).2).Nodup := by
    simp only [detectAbandonedCarts]
    refine (hids2 ▸ hnodup).sublist ?_
    simp only [detectAbandonedCarts]
    exact (List.filter_sublist _).map _
  rw [List.count_append]
  by_cases hmem : cartId ∈ (detectAbandonedCarts env now dateKey w).2
  · have hz : List.count cartId (detectAbandonedCarts env now2 dateKey2
        (detectAbandonedCarts env now dateKey w).1).2 = 0 :=
      List.count_eq_zero.mpr (hdisj hmem)
    have h1 := List.nodup_iff_count_le_one.mp hnd1 cartId
    omega
  · have hz : List.count cartId (detectAbandonedCarts env now dateKey w).2 = 0 :=
      List.count_eq_zero.mpr hmem
    have h2 := List.nodup_iff_count_le_one.mp hnd2 cartId
    omega

/-- Concrete world for the C9 witness: one stale active cart. -/
def c9Cart : Cart :=
  { id := "cart9", customerId := "cust9",
    items := [{ productId := "p9", quantity := 2, price := 30 }],
    status := CartStatus.active, totalValue := 60, lastActivity := 0,
    abandonedAt := none, recoveryAttempts := [] }

def c9World : RecoveryWorld :=
  { carts := [c9Cart], customers := [], seg := { segmentsCache := [], messageCountCache := [] },
    ab := { assignments := [], counters := [] }, plans := [], stats := [], rng := [] }

def c9Env : OrchestratorEnv :=
  { segEnv := { orders := [], messageCount := fun _ => 0, now := 10000000 },
    findTemplate := fun _ _ _ => none }

/-- C9 witness: the single-cart world has unique ids, so each cart is
processed at most once across two immediate sweeps. -/
theorem C9_sweep_idempotent_witness :
    ((c9World.carts.map (fun c => c.id)).Nodup) ∧
    List.count "cart9" ((detectAbandonedCarts c9Env 10000000 "d" c9World).2 ++
      (detectAbandonedCarts c9Env 10000000 "d"
        (detectAbandonedCarts c9Env 10000000 "d" c9World).1).2) ≤ 1 :=
  ⟨by decide,
   (C9_sweep_idempotent c9Env 10000000 10000000 "d" "d" c9World "cart9"
     (by decide)).2⟩

end Customer360
